import Mathlib

/-!
Verification of the `knowsec` repository's natural-language specification
against a shallow Lean embedding of its Python source.

Each section embeds one module of the source tree (`src/knowsec/...`) as
executable Lean definitions: pure numeric code becomes functions over
`ℤ`/`ℚ`, stateful closures become explicit state-passing step functions,
and Python exceptions become `Except`/explicit error sums.  All integer
division and modulo follow the Python semantics noted at each definition.
-/

namespace Knowsec

/-! ### backoff.py

`linear_backoff(max_backoff, initial_wait=1, step=1, verbose=True)` returns a
closure holding a hidden `backoff_ntries` counter.  We embed the closure's
state as a structure and the closure body as a step function returning the
new state, the returned dict `{ntries, wait_time}`, and the duration passed
to `time.sleep` (`none` when `time.sleep` is not called).  `verbose` only
controls a `print` and is not modelled.  Numeric values (int or float in
Python) are modelled as `ℚ`.
-/

structure LinearBackoffState where
  max_backoff : ℚ
  initial_wait : ℚ
  step : ℚ
  backoff_ntries : ℕ
deriving Repr, DecidableEq

structure BackoffResult where
  ntries : ℕ
  wait_time : ℚ
  slept : Option ℚ
deriving Repr, DecidableEq

/-- `linear_backoff(max_backoff, initial_wait, step)`: constructs the closure
with `backoff_ntries = 0`. -/
def linear_backoff (max_backoff : ℚ) (initial_wait : ℚ := 1) (step : ℚ := 1) :
    LinearBackoffState :=
  ⟨max_backoff, initial_wait, step, 0⟩

/-- The closure body `backoff_fun(should_wait=True)` of `linear_backoff`
(backoff.py lines 109–143): on `should_wait=False` it resets the counter to 0
and returns `{ntries: 0, wait_time: 0}` without sleeping; otherwise
`wait_time = min(initial_wait + backoff_ntries * step, max_backoff)`, the
counter is incremented, and it sleeps `wait_time`. -/
def linear_backoff_fun (s : LinearBackoffState) (should_wait : Bool) :
    LinearBackoffState × BackoffResult :=
  if should_wait = false then
    ({ s with backoff_ntries := 0 }, ⟨0, 0, none⟩)
  else
    let wait_time : ℚ :=
      min (s.initial_wait + (s.backoff_ntries : ℚ) * s.step) s.max_backoff
    ({ s with backoff_ntries := s.backoff_ntries + 1 },
      ⟨s.backoff_ntries + 1, wait_time, some wait_time⟩)

/-- State after `k` consecutive `should_wait=True` calls starting from `s`. -/
def linear_backoff_calls (s : LinearBackoffState) : ℕ → LinearBackoffState
  | 0 => s
  | k + 1 => (linear_backoff_fun (linear_backoff_calls s k) true).1

/-! ### date_utils.py

`shift(date_time, n=1, unit='day', shift_backwards=True)` dispatches on the
`unit` string to build a `timedelta`, then subtracts (backwards) or adds it.
We embed instants and timedeltas as total microsecond counts `ℤ` (Python
datetime/timedelta arithmetic is exact at microsecond resolution).  The
`'busday'` branch applies a pandas `BDay(n)` offset; its calendar arithmetic
is out of the claims' scope so it is passed in as the two uninterpreted
functions `busday_add`/`busday_sub` (forward/backward application).  The
source's `elif` chain tests, in order: `'year'`, `'day'`, `'busday'`,
`' week'` (with a leading space, exactly as written in date_utils.py line
65), `'month'`, `'quarter'`, `'minute'`, `'second'`, `'hour'`, else raises
`ValueError('incorrect unit value')`.
-/

inductive DateUtilErr
  | invalidUnit
deriving Repr, DecidableEq

/-- One day in microseconds. -/
def usecPerDay : ℤ := 86400000000

/-- `shift` (date_utils.py lines 55–101). -/
def shift (busday_add busday_sub : ℤ → ℤ → ℤ) (date_time : ℤ) (n : ℤ)
    (unit : String) (shift_backwards : Bool) : Except DateUtilErr ℤ :=
  if unit = "busday" then
    .ok (if shift_backwards then busday_sub date_time n
         else busday_add date_time n)
  else
    let dt_obj : Option ℤ :=
      if unit = "year" then some (365 * n * usecPerDay)
      else if unit = "day" then some (n * usecPerDay)
      else if unit = " week" then some (7 * n * usecPerDay)
      else if unit = "month" then some (30 * n * usecPerDay)
      else if unit = "quarter" then some (90 * n * usecPerDay)
      else if unit = "minute" then some (n * 60000000)
      else if unit = "second" then some (n * 1000000)
      else if unit = "hour" then some (n * 3600000000)
      else none
    match dt_obj with
    | none => .error .invalidUnit
    | some d => .ok (if shift_backwards then date_time - d else date_time + d)

/-- `lead(x, n, unit) = shift(x, n, unit, False)` (date_utils.py 47–48). -/
def lead (busday_add busday_sub : ℤ → ℤ → ℤ) (date_time : ℤ) (n : ℤ)
    (unit : String) : Except DateUtilErr ℤ :=
  shift busday_add busday_sub date_time n unit false

/-- `lag(x, n, unit) = shift(x, n, unit, True)` (date_utils.py 51–52). -/
def lag (busday_add busday_sub : ℤ → ℤ → ℤ) (date_time : ℤ) (n : ℤ)
    (unit : String) : Except DateUtilErr ℤ :=
  shift busday_add busday_sub date_time n unit true

/-- The round-trip property claimed for a unit: shifting backwards by
`(n, unit)` and then forwards by the same `(n, unit)` returns the original
value (and neither call raises). -/
def shift_roundtrip (unit : String) : Prop :=
  ∀ (busday_add busday_sub : ℤ → ℤ → ℤ) (x n : ℤ),
    (lag busday_add busday_sub x n unit).bind
      (fun y => lead busday_add busday_sub y n unit) = .ok x

/-! ### timetrack.py

A Python `datetime.timedelta` normalizes a duration of `μ` microseconds into
`days = μ // 86400_000_000`, `seconds = (μ // 10^6) % 86400` (in `0..86399`)
and `microseconds = μ % 10^6` (in `0..999999`), with Python floor
division/modulo; for the positive divisors used here these coincide with
Lean's `Int./` (`Int.ediv`) and `Int.%` (`Int.emod`).  `Timetrack.elapsed`
returns `now - start` as such a timedelta, so we embed elapsed durations as
their total microsecond count `μ : ℤ`.
-/

/-- `Timetrack.elapsed_seconds` (timetrack.py lines 133–144):
`elapsed.seconds + elapsed.microseconds * 1e-6` for an elapsed duration of
`μ` total microseconds.  The float arithmetic is modelled exactly over `ℚ`. -/
def elapsed_seconds (μ : ℤ) : ℚ :=
  (((μ / 1000000) % 86400 : ℤ) : ℚ) + ((μ % 1000000 : ℤ) : ℚ) * (1 / 1000000)

/-- `execution_time(start_time, end_time)`'s `'seconds'` entry (timetrack.py
line 282): `elapsed.seconds + elapsed.microseconds * 1e-6` where
`elapsed = end_time - start_time`; `s` and `e` are the two instants in
microseconds since an epoch. -/
def execution_time_seconds (s e : ℤ) : ℚ :=
  ((((e - s) / 1000000) % 86400 : ℤ) : ℚ)
    + (((e - s) % 1000000 : ℤ) : ℚ) * (1 / 1000000)

/-- Number of whole days in a duration of `μ` microseconds
(`timedelta.days`). -/
def timedelta_days (μ : ℤ) : ℤ := μ / 86400000000

/-! ### database.py

`StockDB` wraps an SQLAlchemy session over the declared table catalog.  We
embed one table's contents as a list of rows, a row as an association list
from column name to value (values are opaque to every claim considered, so
they are modelled as `ℤ`), and the whole database as a map from table name to
contents.  The `record`/`records` arguments of the insert methods are Python
values whose `isinstance` class is what the code dispatches on, embedded as
the sum `PyRecords` (a single `dict`, a `list` of dicts, a pandas
`DataFrame`, or anything else such as `None`).  Raised exceptions become
`Except` errors; primary-key integrity checking is deferred by the session
to flush/commit and is outside the claims considered here, so the insert
paths append rows.
-/

abbrev Rec := List (String × ℤ)

abbrev Table := List Rec

inductive DBErr
  | missingKey
  | typeMismatch
  | typeErrorMissingArg
deriving Repr, DecidableEq

inductive PyRecords
  | pdict (r : Rec)
  | plist (rs : List Rec)
  | pdataframe (rs : List Rec)
  | pnone
deriving Repr, DecidableEq

/-- Membership test `c in record.keys()`. -/
def hasCol (r : Rec) (c : String) : Bool := (r.lookup c).isSome

/-- `StockDB.insert_record(tablename, record)` (database.py lines 213–242):
a `dict` is added as one row, a DataFrame is appended row-wise via `to_sql`,
anything else raises `TypeError('param: record must be a dict, DataFrame')`. -/
def insert_record (tbl : Table) (record : PyRecords) : Except DBErr Table :=
  match record with
  | .pdict r => .ok (tbl ++ [r])
  | .pdataframe rs => .ok (tbl ++ rs)
  | _ => .error .typeMismatch

/-- `StockDB.bulk_insert_records(tablename, records)` (database.py lines
244–266): a `list` goes through `bulk_insert_mappings`, a DataFrame through
`to_sql(..., if_exists='append')`; any other type matches neither
`isinstance` branch and the method falls through, returning `None` without
touching the table and without raising. -/
def bulk_insert_records (tbl : Table) (records : PyRecords) :
    Except DBErr Table :=
  match records with
  | .plist rs => .ok (tbl ++ rs)
  | .pdataframe rs => .ok (tbl ++ rs)
  | _ => .ok tbl

/-- Overwrite column `c` of a row with value `v` (the effect of an SQL
`UPDATE ... SET c = v` on one row). -/
def setCol (r : Rec) (c : String) (v : ℤ) : Rec :=
  r.map (fun p => if p.1 = c then (p.1, v) else p)

/-- Apply every assignment of `upds` to a row. -/
def applyUpd (row : Rec) (upds : Rec) : Rec :=
  upds.foldl (fun acc p => setCol acc p.1 p.2) row

/-- `StockDB.update_record(tablename, record)` (database.py lines 268–295).
`table_keys` is the table's declared primary-key column list (what
`self.table_keys(tablename)` returns for a table with at least one primary
key).  The code first checks `all([i in record.keys() for i in table_keys])`
and raises `KeyError` when some primary key is absent — before constructing
any query.  Otherwise it deletes the key columns from a copy of the record
and issues one `UPDATE` filtered on equality of every primary key. -/
def update_record (table_keys : List String) (tbl : Table) (record : Rec) :
    Except DBErr Table :=
  if (table_keys.all fun k => hasCol record k) = false then
    .error .missingKey
  else
    let record_insert := record.filter fun p => decide (p.1 ∉ table_keys)
    let rowMatch := fun (row : Rec) =>
      table_keys.all fun k => row.lookup k == record.lookup k
    .ok (tbl.map fun row =>
      if rowMatch row then applyUpd row record_insert else row)

/-- The table contents after an `update_record` call as seen by the caller:
when the call raises, no UPDATE statement was issued and the session state is
untouched, so the table keeps its prior rows. -/
def run_update_record (table_keys : List String) (tbl : Table)
    (record : Rec) : Table :=
  match update_record table_keys tbl record with
  | .ok t => t
  | .error _ => tbl

/-- `StockDB.clear_table(tablename)` (database.py lines 167–175): deletes
every row of the named table, keeping the rest of the database. -/
def clear_table (db : String → Table) (t : String) : String → Table :=
  fun name => if name = t then [] else db name

/-- `StockDB.replace_table(tablename, records)` (database.py lines 314–324).
The body is `self.clear_table(tablename)` followed by
`self.bulk_insert_records(records)`: the second call passes `records` where
the `tablename` parameter stands and supplies nothing for the `records`
parameter, so Python raises
`TypeError: bulk_insert_records() missing 1 required positional argument`
at the call site, after the clear has already been issued to the session and
before any insert happens.  The result is the database with the named table
cleared, paired with the raised error. -/
def replace_table (db : String → Table) (t : String) (records : PyRecords) :
    (String → Table) × Except DBErr Unit :=
  let db1 := clear_table db t
  (db1, .error .typeErrorMissingArg)

/-! ### easylog.py

`Easylog` keeps `self._handlers`, a list of handler records
`{'handler': ..., 'name': ..., 'loggertype': ..., 'loglevel': ...,
'dateformat': ...}`.  For `set_logformat` only the record's `name` and
`dateformat` matter, so a record is embedded as that pair.
-/

structure HandlerRec where
  name : String
  dateformat : String
deriving Repr, DecidableEq

inductive EasylogErr
  | noDefinedHandlers
  | noHandlersFound
  | indexError
  | typeError
deriving Repr, DecidableEq

/-- `Easylog.set_logformat(handlername, fmt, dateformat=None)` (easylog.py
lines 272–308), embedded exactly as written.  The body is
`if self._handlers: raise NoDefinedHandlersError(...)` — so any instance
that has handlers raises immediately — `else` it filters the (necessarily
empty) handler list by name, and since `if handler_records:` is false it
takes the `else` branch whose first statement `handler_records[0]` raises
`IndexError` on the empty list.  The two remaining statements are
unreachable; had they run, `handler_records['handler']` would raise
`TypeError` (a list indexed with a string). -/
def set_logformat (handlers : List HandlerRec) (handlername : String)
    (fmt : String) (dateformat : Option String) : Except EasylogErr Unit :=
  if handlers.isEmpty = false then
    .error .noDefinedHandlers
  else
    let handler_records := handlers.filter fun h => h.name = handlername
    if handler_records.isEmpty = false then
      .error .noHandlersFound
    else
      match handler_records with
      | [] => .error .indexError
      | _ :: _ => .error .typeError

/-! ### dfu.py — Alpha Vantage adapter

`AlphaVantage._retrieve` parses the HTTP response into a JSON object and
enters `while True:` — whose body inspects `self._req_object.json()`, a
value that never changes between iterations.  One iteration either raises,
breaks (two or more keys: a genuine data payload), or falls through and
repeats; since the inspected value is constant, a fall-through iteration
repeats forever.  We embed the body as a single-step function and the loop
as fuel-bounded iteration: `none` at every fuel is non-termination.  The
payload is the JSON object as an ordered association list from key to
message string (only payloads with fewer than two keys ever read a value,
and there the value is the provider's message string).
-/

/-- Whether `needle` is an initial segment of `hay` (character lists). -/
def startsWithChars : List Char → List Char → Bool
  | [], _ => true
  | _ :: _, [] => false
  | a :: as, b :: bs => a == b && startsWithChars as bs

/-- Whether `needle` occurs contiguously anywhere in `hay`. -/
def hasSubChars (needle : List Char) : List Char → Bool
  | [] => startsWithChars needle []
  | c :: rest => startsWithChars needle (c :: rest) || hasSubChars needle rest

/-- Python's `msg.lower().find(needle) != -1` for an ASCII lowercase literal
`needle` (`str.lower` and `Char.toLower` agree on ASCII). -/
def lowerHasSub (needle msg : String) : Bool :=
  hasSubChars needle.data (msg.data.map Char.toLower)

inductive AVErr
  | invalidCall
  | rateLimit
  | generalCall
  | indexError
deriving Repr, DecidableEq

inductive AVStep
  | raiseErr (e : AVErr)
  | breakLoop
  | continueLoop
deriving Repr, DecidableEq

/-- One iteration of the `while True:` body of `AlphaVantage._retrieve`
(dfu.py lines 472–495).  With fewer than two keys, `req_key = keys[0]`
(`IndexError` on an empty object); an `'Error Message'` whose text contains
`'invalid api call'` (case-insensitively) raises `InvalidCallError`, an
`'Information'` whose text contains `'higher api call'` raises
`RateLimitError`, any other single key raises `GeneralCallError` — but an
`'Error Message'`/`'Information'` without its substring matches no `raise`
and the body simply falls through.  With two or more keys the loop reads
`'Meta Data'` and breaks. -/
def av_loop_body (payload : List (String × String)) : AVStep :=
  if payload.length < 2 then
    match payload with
    | [] => .raiseErr .indexError
    | (req_key, msg) :: _ =>
      if req_key = "Error Message" then
        if lowerHasSub "invalid api call" msg then .raiseErr .invalidCall
        else .continueLoop
      else if req_key = "Information" then
        if lowerHasSub "higher api call" msg then .raiseErr .rateLimit
        else .continueLoop
      else .raiseErr .generalCall
  else .breakLoop

/-- The `while True:` loop of `_retrieve`, run for at most `fuel`
iterations.  `some (.error e)` — the loop raised `e`; `some (.ok ())` — the
loop broke to the data path; `none` — `fuel` iterations all fell through.
Because the inspected payload is the same every iteration, `none` for every
`fuel` is exactly non-termination of the source loop. -/
def av_retrieve_loop (payload : List (String × String)) :
    ℕ → Option (Except AVErr Unit)
  | 0 => none
  | fuel + 1 =>
    match av_loop_body payload with
    | .raiseErr e => some (.error e)
    | .breakLoop => some (.ok ())
    | .continueLoop => av_retrieve_loop payload fuel

/-- The call, entered with `payload`, terminates by raising `e`. -/
def av_terminates_raising (payload : List (String × String)) (e : AVErr) :
    Prop :=
  ∃ fuel, av_retrieve_loop payload fuel = some (.error e)

/-- `FIFACTOR` (dfu.py line 18). -/
def FIFACTOR : ℤ := 10000

/-- The fields `_dtype_map` sends to `(np.int64, decimal.Decimal, FIFACTOR)`
(dfu.py lines 339–349): the price-like fields. -/
def av_price_fields : List String :=
  ["1. open", "2. high", "3. low", "4. close", "5. adjusted close",
   "7. dividend amount", "8. split coefficient"]

/-- The stored value of a price-like field (dfu.py lines 512–522):
`np.int64(decimal.Decimal(val) * FIFACTOR)` where the raw decimal string
`val` denotes `m / 10^k` exactly (`decimal.Decimal` of a finite decimal
literal).  The `Decimal` multiplication is exact and the integer conversion
truncates toward zero, which is Lean's `Int.div`. -/
def av_scaled_price (m : ℤ) (k : ℕ) : ℤ :=
  Int.tdiv (m * FIFACTOR) (10 ^ k)

/-- The value the spec's sentence claims is stored:
`round(Decimal(val) × 10000)`. -/
def av_rounded_price (m : ℤ) (k : ℕ) : ℤ :=
  round ((m * FIFACTOR : ℚ) / ((10 : ℚ) ^ k))

/-! ### dfu.py — Barchart adapter

`Barchart.retrieve_data` first normalizes its `symbol` argument (a plain
string is wrapped into a one-element list; a list of more than 25 symbols
raises `TooManySymbolsError` before `_retrieve` — and hence before any HTTP
request — happens), then calls `_retrieve('getQuote.json', ...)`, wraps the
returned quotes in a dataframe and optionally filters them by `mode`.  The
HTTP GET inside `_retrieve` is abstracted by passing the decoded `results`
list in as `response`; the per-field dtype conversion keeps the quotes'
shape and is the identity on this abstraction.  Outcomes carry the updated
`access_log['total_requests']` counter and the number of HTTP requests the
call performed.
-/

inductive BCErr
  | tooManySymbols
deriving Repr, DecidableEq

structure BCQuote where
  symbol : String
  mode : String
deriving Repr, DecidableEq

inductive SymbolArg
  | str (s : String)
  | list (l : List String)
deriving Repr, DecidableEq

/-- `Barchart._retrieve(endpoint, symbols)` (dfu.py lines 678–696): one HTTP
GET, dtype conversion over each quote, then `_update_log()` increments
`total_requests`.  Returns (quotes, new counter, HTTP requests made). -/
def barchart_retrieve (response : List BCQuote) (total_requests : ℕ) :
    List BCQuote × ℕ × ℕ :=
  (response, total_requests + 1, 1)

/-- `Barchart.retrieve_data(symbol, mode=None, series=None)` (dfu.py lines
606–649). -/
def barchart_retrieve_data (symbol : SymbolArg) (mode : Option String)
    (response : List BCQuote) (total_requests : ℕ) :
    Except BCErr (List BCQuote) × ℕ × ℕ :=
  match symbol with
  | .str _ =>
      let r := barchart_retrieve response total_requests
      let quotes := match mode with
        | none => r.1
        | some m => r.1.filter fun q => q.mode = m
      (.ok quotes, r.2.1, r.2.2)
  | .list l =>
      if l.length > 25 then
        (.error .tooManySymbols, total_requests, 0)
      else
        let r := barchart_retrieve response total_requests
        let quotes := match mode with
          | none => r.1
          | some m => r.1.filter fun q => q.mode = m
        (.ok quotes, r.2.1, r.2.2)

end Knowsec

/-! ## Helper lemmas -/

namespace Knowsec

lemma av_retrieve_loop_none_of_continue (payload : List (String × String))
    (h : av_loop_body payload = .continueLoop) :
    ∀ fuel, av_retrieve_loop payload fuel = none := by
  intro fuel
  induction fuel with
  | zero => rfl
  | succ n ih => simp [av_retrieve_loop, h, ih]

lemma linear_backoff_calls_state (s : LinearBackoffState) (k : ℕ) :
    linear_backoff_calls s k =
      { s with backoff_ntries := s.backoff_ntries + k } := by
  induction k with
  | zero => simp [linear_backoff_calls]
  | succ k ih =>
      simp [linear_backoff_calls, ih, linear_backoff_fun]
      omega

end Knowsec

/-! ## Claim theorems -/

/-- **C10.** `Timetrack.elapsed_seconds(tag)`, and the `'seconds'` entry of
`execution(tag)`, return only the sub-day remainder of the elapsed time:
the full elapsed time in seconds equals `days * 86400` plus the returned
value, and the returned value is always strictly below 86400 — even when the
elapsed duration is one day or more. -/
theorem C10_elapsed_seconds_subday :
    ∀ μ : ℤ,
      Knowsec.elapsed_seconds μ < 86400 ∧
      (μ : ℚ) / 1000000 =
        86400 * (Knowsec.timedelta_days μ : ℚ) + Knowsec.elapsed_seconds μ ∧
      ∀ s e : ℤ,
        Knowsec.execution_time_seconds s e = Knowsec.elapsed_seconds (e - s) := by
  intro μ
  refine ⟨?_, ?_, fun s e => rfl⟩
  · have h1 : (μ / 1000000) % 86400 ≤ 86399 := by omega
    have h2 : μ % 1000000 < 1000000 := by omega
    have h3 : 0 ≤ μ % 1000000 := by omega
    have c1 : (((μ / 1000000) % 86400 : ℤ) : ℚ) ≤ 86399 := by exact_mod_cast h1
    have c2 : ((μ % 1000000 : ℤ) : ℚ) < 1000000 := by exact_mod_cast h2
    have c3 : (0 : ℚ) ≤ ((μ % 1000000 : ℤ) : ℚ) := by exact_mod_cast h3
    unfold Knowsec.elapsed_seconds
    nlinarith
  · have hz : μ = 86400000000 * (μ / 86400000000)
        + 1000000 * ((μ / 1000000) % 86400) + μ % 1000000 := by omega
    unfold Knowsec.elapsed_seconds Knowsec.timedelta_days
    have hq : (μ : ℚ) = 86400000000 * ((μ / 86400000000 : ℤ) : ℚ)
        + 1000000 * (((μ / 1000000) % 86400 : ℤ) : ℚ)
        + ((μ % 1000000 : ℤ) : ℚ) := by exact_mod_cast hz
    rw [hq]; ring

/-- **C6.** An instance returned by `linear_backoff(max_backoff, initial_wait,
step)` returns, on its k-th `should_wait=True` call since construction or the
last reset (k counted from 0), `wait_time = min(initial_wait + k*step,
max_backoff)`; `linear_backoff(10, 1, 1)` yields waits `min(1 + k, 10)`,
never exceeding 10; and any `should_wait=False` call resets the counter to 0
and returns `{ntries: 0, wait_time: 0}` without sleeping. -/
theorem C6_linear_backoff_spec :
    (∀ (mb iw st : ℚ) (k : ℕ),
      (Knowsec.linear_backoff_fun
          (Knowsec.linear_backoff_calls (Knowsec.linear_backoff mb iw st) k)
          true).2.wait_time = min (iw + (k : ℚ) * st) mb) ∧
    (∀ (s : Knowsec.LinearBackoffState) (k : ℕ),
      (Knowsec.linear_backoff_fun
          (Knowsec.linear_backoff_calls
            ((Knowsec.linear_backoff_fun s false).1) k)
          true).2.wait_time =
        min (s.initial_wait + (k : ℚ) * s.step) s.max_backoff) ∧
    (∀ k : ℕ,
      (Knowsec.linear_backoff_fun
          (Knowsec.linear_backoff_calls (Knowsec.linear_backoff 10 1 1) k)
          true).2.wait_time = min (1 + (k : ℚ)) 10 ∧
      (Knowsec.linear_backoff_fun
          (Knowsec.linear_backoff_calls (Knowsec.linear_backoff 10 1 1) k)
          true).2.wait_time ≤ 10) ∧
    (∀ s : Knowsec.LinearBackoffState,
      Knowsec.linear_backoff_fun s false =
        ({ s with backoff_ntries := 0 }, ⟨0, 0, none⟩)) := by
  refine ⟨?_, ?_, ?_, ?_⟩
  · intro mb iw st k
    rw [Knowsec.linear_backoff_calls_state]
    simp [Knowsec.linear_backoff, Knowsec.linear_backoff_fun]
  · intro s k
    rw [Knowsec.linear_backoff_calls_state]
    simp [Knowsec.linear_backoff_fun]
  · intro k
    constructor
    · rw [Knowsec.linear_backoff_calls_state]
      simp [Knowsec.linear_backoff, Knowsec.linear_backoff_fun]
    · rw [Knowsec.linear_backoff_calls_state]
      simp [Knowsec.linear_backoff, Knowsec.linear_backoff_fun]
  · intro s
    rfl

/-- **C3.** The claim asserts `shift(x, n, unit, shift_backwards=True)`
succeeds for every unit in {day, week, year, quarter, month, minute, second,
hour} and round-trips with the forwards shift.  The code instead raises the
invalid-unit `ValueError` for `unit='week'`, because date_utils.py line 65
compares against `' week'` with a leading space; `' week'` itself is
accepted.  For the other seven claimed units the round-trip does hold.  This
theorem evaluates the embedding at the failing input `unit = "week"` (with
the busday offset instantiated arbitrarily, as that branch is not taken). -/
theorem C3_shift_week_is_rejected :
    (Knowsec.shift (fun x _ => x) (fun x _ => x) 0 1 "week" true =
      .error .invalidUnit) ∧
    (Knowsec.shift (fun x _ => x) (fun x _ => x) 0 1 " week" true =
      .ok (-604800000000)) ∧
    Knowsec.shift_roundtrip "year" ∧
    Knowsec.shift_roundtrip "day" ∧
    Knowsec.shift_roundtrip "month" ∧
    Knowsec.shift_roundtrip "quarter" ∧
    Knowsec.shift_roundtrip "minute" ∧
    Knowsec.shift_roundtrip "second" ∧
    Knowsec.shift_roundtrip "hour" := by
  refine ⟨rfl, rfl, ?_, ?_, ?_, ?_, ?_, ?_, ?_⟩ <;>
    · intro badd bsub x n
      simp [Knowsec.shift_roundtrip, Knowsec.lag, Knowsec.lead,
        Knowsec.shift, Except.bind]

/-- **C1.** The claim says `replace_table(t, records)` clears table `t` and
then bulk-inserts `records` into the same table `t`, leaving `t` with exactly
the rows of `records`.  The code instead calls
`self.bulk_insert_records(records)` with the table name missing (database.py
line 324), which raises a `TypeError` after the clear: evaluated at the
failing input — table `'exchanges'` holding one row, `records` a one-row
list — the call raises and leaves `'exchanges'` empty rather than containing
the new row. -/
theorem C1_replace_table_raises_after_clear :
    ((Knowsec.replace_table (fun _ => [[("symbol", 10), ("mic", 20)]])
        "exchanges" (.plist [[("symbol", 7), ("mic", 8)]])).2 =
      .error .typeErrorMissingArg) ∧
    ((Knowsec.replace_table (fun _ => [[("symbol", 10), ("mic", 20)]])
        "exchanges" (.plist [[("symbol", 7), ("mic", 8)]])).1 "exchanges" =
      []) ∧
    ([] : Knowsec.Table) ≠ [[("symbol", 7), ("mic", 8)]] := by
  refine ⟨rfl, rfl, by simp⟩

/-- **C5.** For every table whose primary-key column list is `table_keys` and
every record omitting at least one of those columns, `update_record` raises
the Missing-Key error (`KeyError`) and the table's contents — hence its row
count — are exactly as before the call: the check precedes the construction
of any UPDATE statement. -/
theorem C5_update_record_missing_key :
    ∀ (table_keys : List String) (tbl : Knowsec.Table) (record : Knowsec.Rec),
      (∃ k ∈ table_keys, Knowsec.hasCol record k = false) →
      Knowsec.update_record table_keys tbl record = .error .missingKey ∧
      Knowsec.run_update_record table_keys tbl record = tbl := by
  intro table_keys tbl record h
  have hall : (table_keys.all fun k => Knowsec.hasCol record k) = false := by
    cases hb : (table_keys.all fun k => Knowsec.hasCol record k) with
    | false => rfl
    | true =>
        exfalso
        rcases h with ⟨k, hk, hkc⟩
        have hkt := List.all_eq_true.mp hb k hk
        simp [hkc] at hkt
  constructor
  · simp [Knowsec.update_record, hall]
  · simp [Knowsec.run_update_record, Knowsec.update_record, hall]

/-- Witness for C5: the `security_prices` key set is
`[symbol, exchange, date]`; a record carrying only an `open` value omits all
of them, so the call errors and a one-row table is left unchanged. -/
theorem C5_update_record_missing_key_witness :
    Knowsec.update_record ["symbol", "exchange", "date"]
        [[("symbol", 1), ("exchange", 2), ("date", 3), ("open", 40)]]
        [("open", 99)] = .error .missingKey ∧
    Knowsec.run_update_record ["symbol", "exchange", "date"]
        [[("symbol", 1), ("exchange", 2), ("date", 3), ("open", 40)]]
        [("open", 99)] =
      [[("symbol", 1), ("exchange", 2), ("date", 3), ("open", 40)]] :=
  C5_update_record_missing_key ["symbol", "exchange", "date"]
    [[("symbol", 1), ("exchange", 2), ("date", 3), ("open", 40)]]
    [("open", 99)] (by decide)

/-- **C9.** `bulk_insert_records(name, records)` called with `records`
neither a `list` nor a DataFrame (for example a single dict, or `None`)
returns without inserting any row and without raising, whereas
`insert_record` raises the Type-Mismatch `TypeError` for an unsupported
record type (such as `None` or a `list`); a single dict is supported by
`insert_record` and inserted as one row. -/
theorem C9_bulk_insert_silent_noop :
    ∀ (tbl : Knowsec.Table) (r : Knowsec.Rec) (rs : List Knowsec.Rec),
      Knowsec.bulk_insert_records tbl (.pdict r) = .ok tbl ∧
      Knowsec.bulk_insert_records tbl .pnone = .ok tbl ∧
      Knowsec.insert_record tbl .pnone = .error .typeMismatch ∧
      Knowsec.insert_record tbl (.plist rs) = .error .typeMismatch ∧
      Knowsec.insert_record tbl (.pdict r) = .ok (tbl ++ [r]) :=
  fun _ _ _ => ⟨rfl, rfl, rfl, rfl, rfl⟩

/-- **C2.** The claim says `set_logformat` errors exactly when the instance
has no handlers or no handler carries the given name, succeeding otherwise
by rebinding that handler's formatter.  The code's two truthiness checks are
inverted (easylog.py lines 289–296): every call raises — with
`NoDefinedHandlersError` precisely when handlers do exist (including one
whose name matches), and with `IndexError` when no handlers exist.
Evaluated at the failing input: an instance with the single default handler
`console0` and `set_logformat('console0', fmt)`. -/
theorem C2_set_logformat_always_raises :
    (∀ (handlers : List Knowsec.HandlerRec) (handlername fmt : String)
        (dateformat : Option String),
      ∃ e, Knowsec.set_logformat handlers handlername fmt dateformat =
        .error e) ∧
    Knowsec.set_logformat [⟨"console0", "%I:%M:%S %p"⟩] "console0"
        "%(message)s" none = .error .noDefinedHandlers ∧
    Knowsec.set_logformat [] "console0" "%(message)s" none =
      .error .indexError := by
  refine ⟨?_, rfl, rfl⟩
  intro handlers handlername fmt dateformat
  cases handlers with
  | nil => exact ⟨.indexError, rfl⟩
  | cons h t => exact ⟨.noDefinedHandlers, rfl⟩

/-- **C4 (counterexample).** The claim says every raw payload with fewer
than two keys makes `_retrieve` terminate by raising one of Invalid-Call,
Rate-Limit, General-Call.  The single-key payload
`{'Error Message': 'bad symbol'}` — whose message lacks the
`'invalid api call'` substring — matches no `raise` and no `break`, so the
`while True:` loop re-inspects the unchanged response forever: the call
terminates with none of the three errors (nor any other). -/
theorem C4_counterexample_error_message_spins :
    ¬ Knowsec.av_terminates_raising [("Error Message", "bad symbol")]
        .invalidCall ∧
    ¬ Knowsec.av_terminates_raising [("Error Message", "bad symbol")]
        .rateLimit ∧
    ¬ Knowsec.av_terminates_raising [("Error Message", "bad symbol")]
        .generalCall ∧
    ¬ Knowsec.av_terminates_raising [("Error Message", "bad symbol")]
        .indexError := by
  have hbody : Knowsec.av_loop_body [("Error Message", "bad symbol")] =
      .continueLoop := by rfl
  refine ⟨?_, ?_, ?_, ?_⟩ <;>
    · rintro ⟨fuel, hf⟩
      rw [Knowsec.av_retrieve_loop_none_of_continue _ hbody fuel] at hf
      cases hf

/-- **C4 (amended).** For a raw payload with fewer than two keys,
`_retrieve` classifies as follows: a single `'Error Message'` key whose
message contains `'invalid api call'` (case-insensitively) terminates
raising Invalid-Call, and otherwise loops forever; a single `'Information'`
key whose message contains `'higher api call'` terminates raising
Rate-Limit, and otherwise loops forever; any other single key terminates
raising General-Call; a zero-key payload raises an `IndexError` (not one of
the three adapter errors). -/
theorem C4_amended_classification :
    ∀ (key msg : String),
      (key = "Error Message" →
        (Knowsec.lowerHasSub "invalid api call" msg = true →
          Knowsec.av_terminates_raising [(key, msg)] .invalidCall) ∧
        (Knowsec.lowerHasSub "invalid api call" msg = false →
          ∀ fuel, Knowsec.av_retrieve_loop [(key, msg)] fuel = none)) ∧
      (key = "Information" →
        (Knowsec.lowerHasSub "higher api call" msg = true →
          Knowsec.av_terminates_raising [(key, msg)] .rateLimit) ∧
        (Knowsec.lowerHasSub "higher api call" msg = false →
          ∀ fuel, Knowsec.av_retrieve_loop [(key, msg)] fuel = none)) ∧
      (key ≠ "Error Message" → key ≠ "Information" →
        Knowsec.av_terminates_raising [(key, msg)] .generalCall) ∧
      Knowsec.av_terminates_raising [] .indexError := by
  intro key msg
  refine ⟨?_, ?_, ?_, ⟨1, rfl⟩⟩
  · rintro rfl
    constructor
    · intro hsub
      exact ⟨1, by simp [Knowsec.av_retrieve_loop, Knowsec.av_loop_body, hsub]⟩
    · intro hsub
      exact Knowsec.av_retrieve_loop_none_of_continue _
        (by simp [Knowsec.av_loop_body, hsub])
  · rintro rfl
    constructor
    · intro hsub
      exact ⟨1, by simp [Knowsec.av_retrieve_loop, Knowsec.av_loop_body, hsub]⟩
    · intro hsub
      exact Knowsec.av_retrieve_loop_none_of_continue _
        (by simp [Knowsec.av_loop_body, hsub])
  · intro h1 h2
    exact ⟨1, by simp [Knowsec.av_retrieve_loop, Knowsec.av_loop_body, h1, h2]⟩

/-- Witness for C4 (amended): each classification branch evaluated at a
concrete payload. -/
theorem C4_amended_classification_witness :
    Knowsec.av_terminates_raising
        [("Error Message", "Invalid API call. Please retry.")]
        .invalidCall ∧
    Knowsec.av_terminates_raising
        [("Information", "consider a higher API call frequency plan")]
        .rateLimit ∧
    Knowsec.av_terminates_raising [("Note", "thank you")] .generalCall ∧
    Knowsec.av_retrieve_loop [("Information", "please subscribe")] 5 =
      none ∧
    Knowsec.av_terminates_raising [] .indexError := by
  refine ⟨?_, ?_, ?_, ?_, ?_⟩
  · exact ((C4_amended_classification "Error Message"
      "Invalid API call. Please retry.").1 rfl).1 (by rfl)
  · exact ((C4_amended_classification "Information"
      "consider a higher API call frequency plan").2.1 rfl).1 (by rfl)
  · exact (C4_amended_classification "Note" "thank you").2.2.1
      (by decide) (by decide)
  · exact ((C4_amended_classification "Information"
      "please subscribe").2.1 rfl).2 (by rfl) 5
  · exact (C4_amended_classification "x" "y").2.2.2

/-- **C7 (counterexample).** The claim says a price-like field whose raw
decimal string has more than four fractional digits is stored as
`round(Decimal(v) × 10000)`.  For `v = "2.00006"` (that is, 200006/10^5)
the code stores `np.int64(Decimal("2.00006") * 10000) = 20000`, truncating
toward zero, while `round(20000.6) = 20001`. -/
theorem C7_counterexample_truncation :
    Knowsec.av_scaled_price 200006 5 = 20000 ∧
    Knowsec.av_rounded_price 200006 5 = 20001 ∧
    Knowsec.av_scaled_price 200006 5 ≠ Knowsec.av_rounded_price 200006 5 := by
  have h1 : Knowsec.av_scaled_price 200006 5 = 20000 := by decide
  have h2 : Knowsec.av_rounded_price 200006 5 = 20001 := by
    unfold Knowsec.av_rounded_price Knowsec.FIFACTOR
    rw [round_eq, Int.floor_eq_iff]
    constructor <;> norm_num
  exact ⟨h1, h2, by rw [h1, h2]; decide⟩

/-- **C7 (amended).** For every price-like raw decimal string `v = m / 10^k`,
the mature Alpha Vantage adapter stores
`np.int64(Decimal(v) × 10000)`, i.e. `Decimal(v) × 10000` truncated toward
zero; when `v` carries at most four fractional digits this is the exact
integer `m · 10^(4-k)` and coincides with `round(Decimal(v) × 10000)`, but
further fractional digits are dropped, not rounded. -/
theorem C7_amended_scaled_price :
    ∀ (m : ℤ) (k : ℕ), k ≤ 4 →
      Knowsec.av_scaled_price m k = m * 10 ^ (4 - k) ∧
      Knowsec.av_rounded_price m k = m * 10 ^ (4 - k) := by
  intro m k hk
  have hsplit : (10 : ℤ) ^ k * 10 ^ (4 - k) = 10 ^ 4 := by
    rw [← pow_add]
    congr 1
    omega
  have hm : m * Knowsec.FIFACTOR = m * 10 ^ (4 - k) * 10 ^ k := by
    show m * 10000 = m * 10 ^ (4 - k) * 10 ^ k
    rw [mul_assoc, mul_comm ((10 : ℤ) ^ (4 - k)), hsplit]
    norm_num
  constructor
  · unfold Knowsec.av_scaled_price
    rw [hm]
    exact Int.mul_tdiv_cancel _ (by positivity)
  · have hmq := congrArg (fun z : ℤ => (z : ℚ)) hm
    push_cast at hmq
    have hq : (m : ℚ) * ((Knowsec.FIFACTOR : ℤ) : ℚ) / ((10 : ℚ) ^ k)
        = ((m * 10 ^ (4 - k) : ℤ) : ℚ) := by
      rw [div_eq_iff (by positivity : ((10 : ℚ) ^ k) ≠ 0)]
      push_cast
      linarith [hmq]
    unfold Knowsec.av_rounded_price
    rw [hq, round_intCast]

/-- Witness for C7 (amended): `v = "123.45"` (12345/10^2, two fractional
digits) is stored as the exact scaled integer 1234500, on which truncation
and rounding agree. -/
theorem C7_amended_scaled_price_witness :
    Knowsec.av_scaled_price 12345 2 = 12345 * 10 ^ (4 - 2) ∧
    Knowsec.av_rounded_price 12345 2 = 12345 * 10 ^ (4 - 2) :=
  C7_amended_scaled_price 12345 2 (by decide)

/-- **C8.** `Barchart.retrieve_data` with a list of more than 25 symbols
raises Too-Many-Symbols before any network call: no HTTP request is issued
and `access_log.total_requests` is unchanged.  With a list of at most 25
symbols, or a single string symbol, no Too-Many-Symbols error is raised
(the call proceeds to `_retrieve`, issuing one request and incrementing the
counter). -/
theorem C8_barchart_symbol_limit :
    ∀ (l : List String) (s : String) (mode : Option String)
      (response : List Knowsec.BCQuote) (total_requests : ℕ),
      (l.length > 25 →
        Knowsec.barchart_retrieve_data (.list l) mode response
            total_requests =
          (.error .tooManySymbols, total_requests, 0)) ∧
      (l.length ≤ 25 →
        (Knowsec.barchart_retrieve_data (.list l) mode response
            total_requests).1 ≠ .error .tooManySymbols ∧
        (Knowsec.barchart_retrieve_data (.list l) mode response
            total_requests).2 = (total_requests + 1, 1)) ∧
      (Knowsec.barchart_retrieve_data (.str s) mode response
          total_requests).1 ≠ .error .tooManySymbols ∧
      (Knowsec.barchart_retrieve_data (.str s) mode response
          total_requests).2 = (total_requests + 1, 1) := by
  intro l s mode response total_requests
  refine ⟨?_, ?_, ?_, ?_⟩
  · intro hl
    simp [Knowsec.barchart_retrieve_data, hl]
  · intro hl
    have hl' : ¬ l.length > 25 := by omega
    cases mode with
    | none =>
        exact ⟨by simp [Knowsec.barchart_retrieve_data, hl',
          Knowsec.barchart_retrieve], by simp [Knowsec.barchart_retrieve_data,
          hl', Knowsec.barchart_retrieve]⟩
    | some m =>
        exact ⟨by simp [Knowsec.barchart_retrieve_data, hl',
          Knowsec.barchart_retrieve], by simp [Knowsec.barchart_retrieve_data,
          hl', Knowsec.barchart_retrieve]⟩
  · cases mode with
    | none => simp [Knowsec.barchart_retrieve_data, Knowsec.barchart_retrieve]
    | some m => simp [Knowsec.barchart_retrieve_data,
        Knowsec.barchart_retrieve]
  · cases mode with
    | none => simp [Knowsec.barchart_retrieve_data, Knowsec.barchart_retrieve]
    | some m => simp [Knowsec.barchart_retrieve_data,
        Knowsec.barchart_retrieve]

/-- Witness for C8: a 26-symbol request is rejected with the counter
untouched and no HTTP request; a 2-symbol request and a plain-string request
are not rejected. -/
theorem C8_barchart_symbol_limit_witness :
    Knowsec.barchart_retrieve_data (.list (List.replicate 26 "AMD")) none
        [] 3 = (.error .tooManySymbols, 3, 0) ∧
    (Knowsec.barchart_retrieve_data (.list ["AMD", "INTC"]) none [] 3).1 ≠
      .error .tooManySymbols ∧
    (Knowsec.barchart_retrieve_data (.str "AMD") none [] 3).1 ≠
      .error .tooManySymbols :=
  ⟨(C8_barchart_symbol_limit (List.replicate 26 "AMD") "AMD" none [] 3).1
      (by decide),
   ((C8_barchart_symbol_limit ["AMD", "INTC"] "AMD" none [] 3).2.1
      (by decide)).1,
   (C8_barchart_symbol_limit [] "AMD" none [] 3).2.2.1⟩
